/-
Verification of the StreamAlert alert-processor output base layer
(stream_alert/alert_processor/output_base.py) through a shallow embedding
of its functions in Lean 4.

Conventions of the embedding:
- Python strings are Lean `String`s; character-level scanning functions
  work on `List Char`.
- The AWS collaborators (S3 download, KMS decrypt) and the JSON parser
  are oracles packaged in a `World` record; a call either returns a value
  or a `botocore` `ClientError`.
- The relevant slice of the filesystem is the single cache-directory path
  `/tmp/stream_alert_secrets`: the entry at that path (absent, a regular
  file, or a directory holding named credential files).
- Python exceptions escaping a function are modelled with `Except`;
  a Python function that falls through without `return` yields `none`.
-/
import Mathlib

set_option maxRecDepth 4000

/-- Python semantics of `s.replace(pat, rep)` on character lists: scan left
to right, replace each non-overlapping occurrence of `pat`.  The `fuel`
argument makes the recursion structural; it is called with `fuel = s.length`,
which always suffices since each step consumes at least one character.
(The `pat = []` corner is never used: both patterns in the source are
non-empty.) -/
def pyReplaceF (pat rep : List Char) : Nat → List Char → List Char
  | 0, _ => []
  | _ + 1, [] => []
  | fuel + 1, c :: rest =>
    if pat.isPrefixOf (c :: rest) then
      rep ++ pyReplaceF pat rep fuel (List.drop (pat.length - 1) rest)
    else
      c :: pyReplaceF pat rep fuel rest

/-- Python `s.replace(pat, rep)` (replaces every occurrence). -/
def pyReplace (s pat rep : List Char) : List Char :=
  pyReplaceF pat rep s.length s

/-- Replacement of only the first occurrence of `pat` (what the spec's
words "strips ... exactly once" describe; Python `str.replace` does not
behave like this). -/
def replaceOnce : List Char → List Char → List Char → List Char
  | [], _, _ => []
  | c :: rest, pat, rep =>
    if pat.isPrefixOf (c :: rest) then
      rep ++ List.drop (pat.length - 1) rest
    else
      c :: replaceOnce rest pat rep

/-- The fixed infrastructure token stripped by `_format_prefix`. -/
def infraToken : List Char := "_streamalert_alert_processor".toList

/-- StreamOutputBase._format_prefix:
`s3_prefix.replace('_streamalert_alert_processor', '')` followed by
`.replace('_', '.')`. -/
def formatQualifier (q : List Char) : List Char :=
  pyReplace (pyReplace q infraToken []) ['_'] ['.']

/-- Claim-side definition following the spec's words for comparison with
`formatQualifier`: strip the token exactly once, then replace every
remaining underscore with a dot. -/
def stripOnceThenDot (q : List Char) : List Char :=
  pyReplace (replaceOnce q infraToken []) ['_'] ['.']

/-- StreamOutputBase.output_cred_name: the service name, with
`_descriptor` appended when the descriptor is truthy (non-empty). -/
def output_cred_name (service descriptor : String) : String :=
  if descriptor ≠ "" then service ++ "_" ++ descriptor else service

/-- StreamOutputBase._format_s3_bucket: `'.'.join([self.s3_prefix, suffix])`. -/
def format_s3_bucket (s3PrefixVal suffix : String) : String :=
  s3PrefixVal ++ "." ++ suffix

/-- StreamOutputBase.get_secrets_bucket_name for a stored (already
formatted) deployment qualifier. -/
def get_secrets_bucket_name (s3PrefixVal : String) : String :=
  format_s3_bucket s3PrefixVal "streamalert.secrets"

/-- Python exceptions that can escape the embedded functions. -/
inductive PyExc
  | ioError (msg : String)
  | osError (msg : String)
  | valueError (msg : String)
  | keyError (msg : String)
  deriving Repr, DecidableEq

/-- A botocore ClientError (carries the service error response). -/
structure ClientErr where
  response : String
  deriving Repr, DecidableEq

/-- Values of the parsed credential JSON. -/
inductive JVal
  | num (n : Nat)
  | str (s : String)
  deriving Repr, DecidableEq

/-- A parsed credentials dictionary (insertion-ordered association list). -/
abbrev Creds := List (String × JVal)

/-- The filesystem entry at the cache-directory path. -/
inductive FsEntry
  | file (content : String)
  | dir (files : List (String × String))
  deriving Repr, DecidableEq

/-- The relevant filesystem slice: the entry at /tmp/stream_alert_secrets
(`none` = no entry at that path). -/
structure Fs where
  root : Option FsEntry
  deriving Repr, DecidableEq

/-- LOGGER.error events emitted along credential resolution. -/
inductive LogEntry
  | s3DownloadError (credName : String)
  | kmsDecryptError
  deriving Repr, DecidableEq

/-- Mutable state threaded through resolution: filesystem, log, and a
counter of S3 `download_fileobj` invocations (remote fetches). -/
structure St where
  fs : Fs
  log : List LogEntry
  s3Downloads : Nat
  deriving Repr, DecidableEq

/-- External collaborators: S3 (bucket, key ↦ blob or ClientError), KMS
decryption, and `json.loads` (`none` = the input does not parse). -/
structure World where
  s3Download : String → String → Except ClientErr String
  kmsDecrypt : String → Except ClientErr String
  jsonLoads : String → Option Creds

/-- Per-instance construction data of a StreamOutputBase subclass:
region, stored (already formatted) qualifier, service identifiers and
the class's hard-coded default properties (`none` = base returns None). -/
structure Ctx where
  region : String
  s3PrefixVal : String
  service : String
  configService : Option String
  defaults : Option Creds

def Fs.pathExists (fs : Fs) : Bool :=
  fs.root.isSome

def Fs.isDirAtRoot (fs : Fs) : Bool :=
  match fs.root with
  | some (.dir _) => true
  | _ => false

/-- `os.remove`: fails when the path is absent or is a directory. -/
def osRemove (fs : Fs) : Except PyExc Fs :=
  match fs.root with
  | none => .error (.osError "No such file or directory")
  | some (.dir _) => .error (.osError "Is a directory")
  | some (.file _) => .ok { root := none }

/-- `os.makedirs`: fails when an entry already exists at the path. -/
def osMakedirs (fs : Fs) : Except PyExc Fs :=
  match fs.root with
  | some _ => .error (.osError "File exists")
  | none => .ok { root := some (.dir []) }

/-- StreamOutputBase._local_temp_dir: remove a non-directory entry at the
cache path, then create the directory when the path is absent. -/
def local_temp_dir (fs : Fs) : Except PyExc Fs :=
  match (if fs.pathExists && !fs.isDirAtRoot then osRemove fs else .ok fs : Except PyExc Fs) with
  | .error e => .error e
  | .ok fs1 => if !fs1.pathExists then osMakedirs fs1 else .ok fs1

/-- Set (or add) a key in an association list the way Python dict/file
assignment behaves: overwrite in place when present, append when absent. -/
def setAssoc (fls : List (String × String)) (k v : String) : List (String × String) :=
  if (fls.lookup k).isSome then
    fls.map (fun p => if p.1 == k then (k, v) else p)
  else
    fls ++ [(k, v)]

/-- Content of the credential file `name` inside the cache directory
(`none` when the directory or the file is absent). -/
def Fs.readCred (fs : Fs) (name : String) : Option String :=
  match fs.root with
  | some (.dir fls) => fls.lookup name
  | _ => none

/-- Write the credential file `name` (callers have run `_local_temp_dir`
first, so the root is a directory; otherwise this is a no-op). -/
def Fs.writeCred (fs : Fs) (name : String) (content : String) : Fs :=
  match fs.root with
  | some (.dir fls) => { root := some (.dir (setAssoc fls name content)) }
  | _ => fs

/-- Python dict.update for one key/value pair. -/
def pyUpdateOne (d : Creds) (kv : String × JVal) : Creds :=
  if (d.lookup kv.1).isSome then
    d.map (fun p => if p.1 == kv.1 then (kv.1, kv.2) else p)
  else
    d ++ [kv]

/-- Python `creds_dict.update(defaults)`. -/
def pyUpdate (d ds : Creds) : Creds :=
  ds.foldl pyUpdateOne d

/-- StreamOutputBase._get_creds_from_s3: `open(cred_location, 'wb')`
creates/truncates the file, then `download_fileobj` streams the blob into
it; a ClientError is caught, logged, and the function falls through
(returning Python None, which is falsy — modelled as `false`). -/
def get_creds_from_s3 (ctx : Ctx) (w : World) (name : String) (st : St) : Bool × St :=
  let st1 : St := { st with fs := st.fs.writeCred name "" }
  let st2 : St := { st1 with s3Downloads := st1.s3Downloads + 1 }
  match w.s3Download (get_secrets_bucket_name ctx.s3PrefixVal) name with
  | .ok blob => (true, { st2 with fs := st2.fs.writeCred name blob })
  | .error _ => (false, { st2 with log := st2.log ++ [.s3DownloadError name] })

/-- StreamOutputBase._kms_decrypt: returns the plaintext, or catches a
ClientError, logs it, and falls through (None). -/
def kms_decrypt (w : World) (data : String) (st : St) : Option String × St :=
  match w.kmsDecrypt data with
  | .ok plain => (some plain, st)
  | .error _ => (none, { st with log := st.log ++ [.kmsDecryptError] })

/-- Semantics of `cred_file.read()` on a Python 2 file handle opened with
mode 'wb': the handle is write-only, the underlying read fails with EBADF
and Python raises IOError. -/
def readFromWriteHandle : Except PyExc String :=
  .error (.ioError "File not open for reading")

/-- Lines 89-105 of _load_creds, entered once the blob is present on disk:
`with open(local_cred_location, 'wb') as cred_file: enc_creds =
cred_file.read()` (the 'wb' open truncates the cached blob, and the read
raises), then KMS decryption, `json.loads`, and the defaults merge. -/
def load_creds_cached (ctx : Ctx) (w : World) (name : String) (st : St) :
    Except PyExc (Option Creds) × St :=
  let st1 : St := { st with fs := st.fs.writeCred name "" }
  match readFromWriteHandle with
  | .error e => (.error e, st1)
  | .ok enc =>
    match kms_decrypt w enc st1 with
    | (none, st2) => (.ok none, st2)
    | (some plain, st2) =>
      if plain == "" then (.ok none, st2)
      else
        match w.jsonLoads plain with
        | none => (.error (.valueError "No JSON object could be decoded"), st2)
        | some creds =>
          let merged : Creds :=
            match ctx.defaults with
            | none => creds
            | some ds => if ds.isEmpty then creds else pyUpdate creds ds
          (.ok (some merged), st2)

/-- StreamOutputBase._load_creds: compute the local cache path, fetch the
blob from S3 when it is not cached, then read/decrypt/parse/merge. -/
def load_creds (ctx : Ctx) (w : World) (descriptor : String) (st : St) :
    Except PyExc (Option Creds) × St :=
  match local_temp_dir st.fs with
  | .error e => (.error e, st)
  | .ok fs0 =>
    let st0 : St := { st with fs := fs0 }
    let name := output_cred_name ctx.service descriptor
    if (st0.fs.readCred name).isSome then
      load_creds_cached ctx w name st0
    else
      match get_creds_from_s3 ctx w name st0 with
      | (true, st1) => load_creds_cached ctx w name st1
      | (false, st1) => (.ok none, st1)

/-- StreamOutputBase.get_config_service: the tuple-indexing idiom
`(config_service, service)[config_service == NotImplemented]`
(`none` models the NotImplemented sentinel). -/
def get_config_service (service : String) (configService : Option String) : String :=
  match configService with
  | none => service
  | some c => c

/-- One OutputProperty record (namedtuple with defaults). -/
structure OutputProperty where
  description : String
  value : String
  is_secret : Bool
  cred_requirement : Bool
  deriving Repr, DecidableEq

/-- StreamOutputBase.format_output_config:
`config.get(self.get_config_service(), []) + [props['descriptor'].value]`.
The expression only reads `config` (dict.get) and builds a fresh list with
`+`; the returned second component records the config mapping after the
call, which the source leaves untouched.  A missing 'descriptor' key
would raise KeyError. -/
def format_output_config (service : String) (configService : Option String)
    (config : List (String × List String)) (props : List (String × OutputProperty)) :
    Except PyExc (List String) × List (String × List String) :=
  match props.lookup "descriptor" with
  | none => (.error (.keyError "descriptor"), config)
  | some p =>
    (.ok (((config.lookup (get_config_service service configService)).getD []) ++ [p.value]),
      config)

/-- An HTTP response (only the status code is relevant here). -/
structure HttpResponse where
  code : Nat
  deriving Repr, DecidableEq

/-- StreamOutputBase._check_http_response:
`resp and (200 <= resp.getcode() <= 299)`.  A None response is falsy, so
the expression is truthy exactly when the response is present with a 2xx
code; the truthiness of the returned value is modelled as a Bool. -/
def check_http_response (resp : Option HttpResponse) : Bool :=
  match resp with
  | none => false
  | some r => decide (200 ≤ r.code) && decide (r.code ≤ 299)

/-- An ssl context as configured by _request_helper when verify is false:
`check_hostname = False`, `verify_mode = ssl.CERT_NONE`. -/
structure SslCtx where
  checkHostname : Bool
  verifyCertNone : Bool
  deriving Repr, DecidableEq

/-- A constructed urllib2.Request together with the context passed to
urlopen.  `Request.__init__` copies the headers dict it was given, so a
built request always holds a definite header list. -/
structure UrlRequest where
  url : String
  payload : String
  headers : List (String × String)
  context : Option SslCtx
  deriving Repr, DecidableEq

/-- Outcome of `urllib2.urlopen`: a response, an `HTTPError` (error
status, carrying url/code/body), or a `URLError` (connection-level
failure, carrying the reason). -/
inductive UrlopenOutcome
  | success (resp : HttpResponse)
  | httpError (url : String) (code : Nat) (body : String)
  | urlError (reason : String)
  deriving Repr, DecidableEq

/-- The transport collaborator. -/
structure TransportWorld where
  urlopen : UrlRequest → UrlopenOutcome

/-- Errors escaping _request_helper. -/
inductive ReqError
  | outputRequestFailure (msg : String)
  | urlError (reason : String)
  | attributeError (msg : String)
  deriving Repr, DecidableEq

def isOutputRequestFailure : ReqError → Bool
  | .outputRequestFailure _ => true
  | .urlError _ => false
  | .attributeError _ => false

/-- The request _request_helper builds from a definite headers dict:
context is None unless verify is false, in which case hostname checking
and certificate verification are disabled. -/
def builtRequest (url payload : String) (headers : List (String × String))
    (verify : Bool) : UrlRequest :=
  { url := url, payload := payload, headers := headers,
    context := if verify then none else some { checkHostname := false, verifyCertNone := true } }

/-- StreamOutputBase._request_helper.  The headers argument defaults to
None; `urllib2.Request(url, data=data, headers=headers)` unconditionally
iterates `headers.items()` in `Request.__init__`, so with headers=None it
raises AttributeError before urlopen is ever called (an AttributeError is
not an HTTPError, so the except clause does not catch it).  With a
headers dict the request is issued: an HTTPError is re-raised as
OutputRequestFailure with the url, code and body; a plain URLError is not
an HTTPError either, so it propagates to the caller unchanged. -/
def request_helper (w : TransportWorld) (url payload : String)
    (headers : Option (List (String × String))) (verify : Bool) :
    Except ReqError HttpResponse :=
  match headers with
  | none => .error (.attributeError "NoneType object has no attribute items")
  | some hdrs =>
    match w.urlopen (builtRequest url payload hdrs verify) with
    | .success resp => .ok resp
    | .httpError u c b =>
      .error (.outputRequestFailure
        ("Failed to send to " ++ u ++ " - [" ++ toString c ++ "] " ++ b))
    | .urlError reason => .error (.urlError reason)

theorem pyReplaceF_underscore_not_mem :
    ∀ (fuel : Nat) (s : List Char), ('_' ∈ pyReplaceF ['_'] ['.'] fuel s) → False := by
  intro fuel
  induction fuel with
  | zero => intro s h; simp [pyReplaceF] at h
  | succ n ih =>
    intro s
    cases s with
    | nil => intro h; simp [pyReplaceF] at h
    | cons c rest =>
      by_cases h : c = '_'
      · subst h
        intro hmem
        simp [pyReplaceF, List.isPrefixOf] at hmem
        exact ih _ hmem
      · intro hmem
        have hpre : (['_'] : List Char).isPrefixOf (c :: rest) = false := by
          simp [List.isPrefixOf]
          exact fun hc => h hc.symm
        simp [pyReplaceF, hpre] at hmem
        rcases hmem with hmem | hmem
        · exact h hmem.symm
        · exact ih _ hmem

theorem formatQualifier_underscore_free (q : List Char) :
    (formatQualifier q).contains '_' = false := by
  have h := pyReplaceF_underscore_not_mem (pyReplace q infraToken []).length
    (pyReplace q infraToken [])
  unfold formatQualifier pyReplace
  simp only [List.contains, List.elem_eq_mem, decide_eq_false_iff_not]
  exact h

theorem lookup_append_single_of_none (k v : String) :
    ∀ fls : List (String × String), fls.lookup k = none →
      (fls ++ [(k, v)]).lookup k = some v := by
  intro fls
  induction fls with
  | nil => intro _; simp [List.lookup]
  | cons hd tl ih =>
    intro h
    simp only [List.lookup, List.cons_append] at h ⊢
    cases hk : (k == hd.1) with
    | true => simp [hk] at h
    | false => simp only [hk] at h ⊢; exact ih h

theorem local_temp_dir_of_dir (fs : Fs) (fls : List (String × String))
    (h : fs.root = some (.dir fls)) : local_temp_dir fs = .ok fs := by
  cases fs with
  | mk root =>
    simp only at h
    subst h
    rfl

theorem load_creds_cached_eq (ctx : Ctx) (w : World) (name : String) (st : St) :
    load_creds_cached ctx w name st
      = (.error (.ioError "File not open for reading"), { st with fs := st.fs.writeCred name "" }) :=
  rfl

/-- A slack output instance with no hard-coded default properties. -/
def ctxSlack : Ctx :=
  { region := "us-east-1", s3PrefixVal := "prod", service := "slack",
    configService := none, defaults := none }

/-- A slack output instance whose class hard-codes the default property b = 9. -/
def ctxMerge : Ctx :=
  { region := "us-east-1", s3PrefixVal := "prod", service := "slack",
    configService := none, defaults := some [("b", .num 9)] }

/-- World where every S3 download fails with a ClientError and KMS would succeed. -/
def wS3Fail : World :=
  { s3Download := fun _ _ => .error { response := "AccessDenied" },
    kmsDecrypt := fun _ => .ok "PLAINTEXT",
    jsonLoads := fun _ => some [("url", .str "hooks")] }

/-- World where S3 succeeds and every KMS decryption fails with a ClientError. -/
def wKmsFail : World :=
  { s3Download := fun _ _ => .ok "ENCBLOB",
    kmsDecrypt := fun _ => .error { response := "AccessDenied" },
    jsonLoads := fun _ => none }

/-- World where the blob decrypts to a plaintext parsing as the dict a = 1, b = 2. -/
def wMerge : World :=
  { s3Download := fun _ _ => .ok "ENCBLOB",
    kmsDecrypt := fun _ => .ok "PLAINTEXT",
    jsonLoads := fun s => if s == "PLAINTEXT" then some [("a", .num 1), ("b", .num 2)] else none }

/-- Cache directory already holding the encrypted blob for slack_alerts. -/
def stCached : St :=
  { fs := { root := some (.dir [("slack_alerts", "ENCBLOB")]) }, log := [], s3Downloads := 0 }

/-- Cache directory present but empty. -/
def stEmptyDir : St :=
  { fs := { root := some (.dir []) }, log := [], s3Downloads := 0 }

/-- The OutputProperty holding descriptor value "alerts". -/
def propAlerts : OutputProperty :=
  { description := "", value := "alerts", is_secret := false, cred_requirement := false }

/-- Transport whose urlopen fails with an HTTP error status 500. -/
def wHttp500 : TransportWorld :=
  { urlopen := fun _ => .httpError "https://target" 500 "oops" }

/-- Transport whose urlopen fails with a connection-level URLError. -/
def wConnRefused : TransportWorld :=
  { urlopen := fun _ => .urlError "Connection refused" }

/-- C1: with the encrypted blob already cached, two successive _load_creds
calls perform zero S3 downloads — but both calls raise IOError instead of
returning the merged credentials mapping, because the cached blob is
opened with mode 'wb' (truncating it) and read() on the write-only handle
raises.  This evaluates the code at the failing input of the claim. -/
theorem c1_cached_double_call_raises :
    (load_creds ctxSlack wS3Fail "alerts" stCached).1
        = .error (.ioError "File not open for reading")
    ∧ (load_creds ctxSlack wS3Fail "alerts" (load_creds ctxSlack wS3Fail "alerts" stCached).2).1
        = .error (.ioError "File not open for reading")
    ∧ (load_creds ctxSlack wS3Fail "alerts"
        (load_creds ctxSlack wS3Fail "alerts" stCached).2).2.s3Downloads = 0 :=
  ⟨rfl, rfl, rfl⟩

/-- C2: the remote-fetch failure is absorbed as claimed (absent result,
exactly one log entry), but a KMS decryption failure can never be
absorbed: with the blob cached, _load_creds raises IOError to the caller
before decryption is reached, and nothing is logged.  This evaluates the
code at the failing input of the claim. -/
theorem c2_fetch_absorbed_decrypt_unreachable :
    (load_creds ctxSlack wS3Fail "alerts" stEmptyDir).1 = .ok none
    ∧ (load_creds ctxSlack wS3Fail "alerts" stEmptyDir).2.log
        = [.s3DownloadError "slack_alerts"]
    ∧ (load_creds ctxSlack wKmsFail "alerts" stCached).1
        = .error (.ioError "File not open for reading")
    ∧ (load_creds ctxSlack wKmsFail "alerts" stCached).2.log = [] :=
  ⟨rfl, rfl, rfl, rfl⟩

/-- C3 counterexample: on a qualifier containing the infrastructure token
twice, _format_prefix strips both occurrences (Python str.replace), so
its result differs from the spec's strip-exactly-once reading. -/
theorem c3_strip_exactly_once_fails :
    formatQualifier "prod_streamalert_alert_processor_streamalert_alert_processor".toList
        = "prod".toList
    ∧ stripOnceThenDot "prod_streamalert_alert_processor_streamalert_alert_processor".toList
        = "prod.streamalert.alert.processor".toList
    ∧ formatQualifier "prod_streamalert_alert_processor_streamalert_alert_processor".toList
        ≠ stripOnceThenDot
            "prod_streamalert_alert_processor_streamalert_alert_processor".toList := by
  refine ⟨rfl, rfl, ?_⟩
  decide

/-- C3 (amended): _format_prefix removes every occurrence of
'_streamalert_alert_processor' (not exactly once) and then replaces every
remaining underscore with a dot — hence its output never contains an
underscore — and it maps the two spec examples as stated. -/
theorem c3_every_occurrence_stripped :
    (∀ q : List Char, (formatQualifier q).contains '_' = false)
    ∧ formatQualifier "prod_streamalert_alert_processor".toList = "prod".toList
    ∧ formatQualifier "prod_east_streamalert_alert_processor".toList = "prod.east".toList
    ∧ formatQualifier "prod_streamalert_alert_processor_streamalert_alert_processor".toList
        = "prod".toList :=
  ⟨formatQualifier_underscore_free, rfl, rfl, rfl⟩

/-- C4: the merge code itself (dict.update) does overlay the parsed data
with the defaults, the defaults winning on collision — but _load_creds
never returns that merged mapping: it raises IOError at the read step
before decrypting, parsing or merging.  This evaluates the code at the
failing input of the claim. -/
theorem c4_defaults_merge_unreachable :
    pyUpdate [("a", JVal.num 1), ("b", JVal.num 2)] [("b", JVal.num 9)]
        = [("a", JVal.num 1), ("b", JVal.num 9)]
    ∧ (load_creds ctxMerge wMerge "alerts" stCached).1
        = .error (.ioError "File not open for reading") :=
  ⟨rfl, rfl⟩

/-- C5: output_cred_name returns the service alone when the descriptor is
empty, and service_descriptor otherwise, for every non-empty service. -/
theorem c5_credential_name (service descriptor : String) (_hs : service ≠ "") :
    (descriptor = "" → output_cred_name service descriptor = service)
    ∧ (descriptor ≠ "" → output_cred_name service descriptor
        = service ++ "_" ++ descriptor) := by
  constructor
  · intro hd; simp [output_cred_name, hd]
  · intro hd; simp [output_cred_name, hd]

/-- C5 witness: both cases evaluated at the service slack. -/
theorem c5_credential_name_witness :
    output_cred_name "slack" "" = "slack"
    ∧ output_cred_name "slack" "alerts" = "slack_alerts" := by
  constructor
  · exact (c5_credential_name "slack" "" (by decide)).1 rfl
  · exact (c5_credential_name "slack" "alerts" (by decide)).2 (by decide)

/-- C6: format_output_config returns the existing descriptor list for the
service with the new descriptor appended (the empty list plus the
descriptor when the service is absent) as a fresh list, and the config
mapping after the call is the original one, unchanged. -/
theorem c6_format_output_config_appends (service : String) (configService : Option String)
    (config : List (String × List String)) (props : List (String × OutputProperty))
    (p : OutputProperty) (h : props.lookup "descriptor" = some p) :
    format_output_config service configService config props
      = (.ok (((config.lookup (get_config_service service configService)).getD []) ++ [p.value]),
          config) := by
  simp [format_output_config, h]

/-- C6 witness: the two spec examples, including the untouched config. -/
theorem c6_format_output_config_witness :
    format_output_config "slack" none [("slack", ["ops"])] [("descriptor", propAlerts)]
        = (.ok ["ops", "alerts"], [("slack", ["ops"])])
    ∧ format_output_config "slack" none [] [("descriptor", propAlerts)]
        = (.ok ["alerts"], []) :=
  ⟨c6_format_output_config_appends "slack" none [("slack", ["ops"])]
      [("descriptor", propAlerts)] propAlerts rfl,
   c6_format_output_config_appends "slack" none [] [("descriptor", propAlerts)] propAlerts rfl⟩

/-- C7 counterexample: with a concrete headers dict, a connection-level
failure (urllib2.URLError) is not caught by the `except urllib2.HTTPError`
clause, so _request_helper propagates it unchanged — OutputRequestFailure
is not the only error type the helper can raise. -/
theorem c7_connection_error_not_translated :
    request_helper wConnRefused "https://target" "payload"
        (some [("Content-Type", "application-json")]) true
        = .error (.urlError "Connection refused")
    ∧ isOutputRequestFailure (.urlError "Connection refused") = false :=
  ⟨rfl, rfl⟩

/-- C7 (amended): with the default headers=None the helper raises
AttributeError inside urllib2.Request construction before any transport
call; given a headers dict, an HTTP error status fails with
OutputRequestFailure carrying the URL, status code and body — the only
failure mode the helper translates — while connection errors (URLError)
propagate to the caller untranslated. -/
theorem c7_error_translation (w : TransportWorld) (url payload : String)
    (hdrs : List (String × String)) (verify : Bool)
    (u b reason : String) (c : Nat) (resp : HttpResponse) :
    request_helper w url payload none verify
        = .error (.attributeError "NoneType object has no attribute items")
    ∧ (w.urlopen (builtRequest url payload hdrs verify) = .success resp →
      request_helper w url payload (some hdrs) verify = .ok resp)
    ∧ (w.urlopen (builtRequest url payload hdrs verify) = .httpError u c b →
      request_helper w url payload (some hdrs) verify
        = .error (.outputRequestFailure
            ("Failed to send to " ++ u ++ " - [" ++ toString c ++ "] " ++ b)))
    ∧ (w.urlopen (builtRequest url payload hdrs verify) = .urlError reason →
      request_helper w url payload (some hdrs) verify = .error (.urlError reason)) := by
  refine ⟨rfl, ?_, ?_, ?_⟩ <;> intro h <;> simp [request_helper, h]

/-- C7 witness: both transport failure modes evaluated at concrete
transports with a concrete headers dict. -/
theorem c7_error_translation_witness :
    request_helper wHttp500 "https://target" "payload"
        (some [("Content-Type", "application-json")]) true
        = .error (.outputRequestFailure "Failed to send to https://target - [500] oops")
    ∧ request_helper wConnRefused "https://target" "payload"
        (some [("Content-Type", "application-json")]) true
        = .error (.urlError "Connection refused") :=
  ⟨(c7_error_translation wHttp500 "https://target" "payload"
      [("Content-Type", "application-json")] true
      "https://target" "oops" "r" 500 { code := 200 }).2.2.1 rfl,
   (c7_error_translation wConnRefused "https://target" "payload"
      [("Content-Type", "application-json")] true
      "u" "b" "Connection refused" 500 { code := 200 }).2.2.2 rfl⟩

/-- C8: _check_http_response is truthy exactly when the response is
present with a status code in [200, 299]; in particular 200 and 299 are
accepted and 199, 300 and a missing response are not. -/
theorem c8_check_http_response_iff :
    (∀ resp : Option HttpResponse,
      check_http_response resp = true ↔ ∃ r, resp = some r ∧ 200 ≤ r.code ∧ r.code ≤ 299)
    ∧ check_http_response (some { code := 200 }) = true
    ∧ check_http_response (some { code := 299 }) = true
    ∧ check_http_response (some { code := 199 }) = false
    ∧ check_http_response (some { code := 300 }) = false
    ∧ check_http_response none = false := by
  refine ⟨?_, by decide, by decide, by decide, by decide, rfl⟩
  intro resp
  cases resp with
  | none => simp [check_http_response]
  | some r => simp [check_http_response]

/-- C9: after _local_temp_dir, the cache path holds a directory and no
error was raised: a regular file at the path is removed and replaced by a
fresh directory, an absent path gets the directory created, and an
existing directory is kept as is. -/
theorem c9_local_temp_dir_ensures_directory (fs : Fs) :
    (∃ fs1, local_temp_dir fs = .ok fs1 ∧ fs1.isDirAtRoot = true)
    ∧ (∀ fls, fs.root = some (.dir fls) → local_temp_dir fs = .ok fs)
    ∧ (∀ b, fs.root = some (.file b) → local_temp_dir fs = .ok { root := some (.dir []) })
    ∧ (fs.root = none → local_temp_dir fs = .ok { root := some (.dir []) }) := by
  cases fs with
  | mk root =>
    cases root with
    | none =>
      exact ⟨⟨{ root := some (.dir []) }, rfl, rfl⟩,
        fun fls h => by simp at h, fun b h => by simp at h, fun _ => rfl⟩
    | some e =>
      cases e with
      | file b =>
        exact ⟨⟨{ root := some (.dir []) }, rfl, rfl⟩,
          fun fls h => by simp at h, fun b' h => rfl, fun h => by simp at h⟩
      | dir fls =>
        exact ⟨⟨{ root := some (.dir fls) }, rfl, rfl⟩,
          fun fls' h => rfl, fun b h => by simp at h, fun h => by simp at h⟩

/-- C9 witness: the conflict case — a regular file at the cache path is
removed and replaced by the directory, with no error surfaced. -/
theorem c9_local_temp_dir_witness :
    local_temp_dir { root := some (.file "junk") } = .ok { root := some (.dir []) } :=
  (c9_local_temp_dir_ensures_directory { root := some (.file "junk") }).2.2.1 "junk" rfl

/-- C10: when the S3 download fails with a ClientError, the file at the
cache path was already created (empty) by the preceding open, so after
the failed fetch the path exists; a subsequent _load_creds call for the
same credential name sees the path as present and performs no further S3
download. -/
theorem c10_failed_fetch_creates_file_and_skips (ctx : Ctx) (w : World) (descriptor : String)
    (st : St) (fls : List (String × String)) (e : ClientErr)
    (hroot : st.fs.root = some (.dir fls))
    (habsent : fls.lookup (output_cred_name ctx.service descriptor) = none)
    (hfail : w.s3Download (get_secrets_bucket_name ctx.s3PrefixVal)
        (output_cred_name ctx.service descriptor) = .error e) :
    (load_creds ctx w descriptor st).1 = .ok none
    ∧ (load_creds ctx w descriptor st).2.fs.readCred (output_cred_name ctx.service descriptor)
        = some ""
    ∧ (load_creds ctx w descriptor st).2.s3Downloads = st.s3Downloads + 1
    ∧ (load_creds ctx w descriptor (load_creds ctx w descriptor st).2).2.s3Downloads
        = (load_creds ctx w descriptor st).2.s3Downloads := by
  obtain ⟨⟨root0⟩, log0, dl0⟩ := st
  have hroot' : root0 = some (.dir fls) := hroot
  subst hroot'
  have hstep : load_creds ctx w descriptor { fs := { root := some (.dir fls) }, log := log0, s3Downloads := dl0 }
      = (.ok none,
          { fs := { root := some (.dir (fls ++ [(output_cred_name ctx.service descriptor, "")])) },
            log := log0 ++ [.s3DownloadError (output_cred_name ctx.service descriptor)],
            s3Downloads := dl0 + 1 }) := by
    simp [load_creds, local_temp_dir, Fs.pathExists, Fs.isDirAtRoot, Fs.readCred, Fs.writeCred,
      setAssoc, get_creds_from_s3, habsent, hfail]
  rw [hstep]
  have hlook := lookup_append_single_of_none (output_cred_name ctx.service descriptor) "" fls habsent
  refine ⟨rfl, ?_, rfl, ?_⟩
  · simp [Fs.readCred, hlook]
  · simp [load_creds, local_temp_dir, Fs.pathExists, Fs.isDirAtRoot, Fs.readCred,
      load_creds_cached_eq, hlook]

/-- C10 witness: the poisoned-cache scenario evaluated concretely. -/
theorem c10_failed_fetch_witness :
    (load_creds ctxSlack wS3Fail "alerts" stEmptyDir).1 = .ok none
    ∧ (load_creds ctxSlack wS3Fail "alerts" stEmptyDir).2.fs.readCred "slack_alerts" = some ""
    ∧ (load_creds ctxSlack wS3Fail "alerts" stEmptyDir).2.s3Downloads = 1
    ∧ (load_creds ctxSlack wS3Fail "alerts"
        (load_creds ctxSlack wS3Fail "alerts" stEmptyDir).2).2.s3Downloads = 1 := by
  have h := c10_failed_fetch_creates_file_and_skips ctxSlack wS3Fail "alerts" stEmptyDir []
    { response := "AccessDenied" } rfl rfl rfl
  exact ⟨h.1, h.2.1, h.2.2.1, h.2.2.2.trans h.2.2.1⟩
